import Mathlib

/-!
# taosocks client: relay engine

A shallow embedding of `client/tcp_relayer.go`:

* `LocalRelayer.Begin`, `RemoteRelayer.dialServer`, `RemoteRelayer.Begin`
  (the handshake phase),
* `RemoteRelayer.src2dst`, `RemoteRelayer.dst2src` and the two goroutine bodies
  of `RemoteRelayer.Relay` (the relay phase),
* `SmartRelayer.Relay` (the orchestration).

Everything the code asks of the outside world (the classifier, the network, the
gob codec) is answered by an explicit `World` record or by explicit scripts of
call results; everything the code does to the outside world is recorded in an
event trace.  Calls to `tslog` only print and are left out of the traces.
-/

namespace Taosocks

/-! ## Data model -/

/-- A `net.Conn` handle. -/
abbrev Conn := Nat

/-- Error values that come out of the Go standard library (`net`, `crypto/tls`,
`net/http`, `encoding/gob`, `io`).  None of them can be one of the two
package-level sentinels of `tcp_relayer.go`. -/
inductive LibError where
  | EOF
  | other (code : Nat)
deriving DecidableEq, Repr

/-- Go `error` values seen by the client package.  Equality of Go errors is
identity of the error value, so the two package-level variables are constructors
of their own, and every `errors.New` / `fmt.Errorf` call site builds a value
that differs from both. -/
inductive GoError where
  | ErrCannotDialRemoteServer
  | ErrRemoteServerCannotConnectHost
  | errorsNew (msg : String)
  | lib (e : LibError)
deriving DecidableEq, Repr

/-- Modelled from the spec: the declaration of the classification type returned
by `filter.Test` is not among the sources; the spec gives its five values, and
these are the five constants `SmartRelayer.Relay` switches on. -/
inductive ProxyType where
  | proxyTypeDirect
  | proxyTypeAutoDirect
  | proxyTypeProxy
  | proxyTypeAutoProxy
  | proxyTypeReject
deriving DecidableEq, Repr

/-- The `xConfig` record of `main.go`. -/
structure xConfig where
  Listen : String
  Server : String
  Insecure : Bool
  Key : String
  Path : String
deriving DecidableEq, Repr

/-- The constant `gVersion`. -/
def gVersion : String := "taosocks/20200610"

/-- The fields of the `http.Request` that `dialServer` fills in. -/
structure Request where
  method : String
  url : String
  host : String
  header : List (String × String)
deriving DecidableEq, Repr

/-- The `LocalRelayer` struct. -/
structure LocalRelayer where
  src : Option Conn
  dst : Option Conn
  addr : String
deriving DecidableEq, Repr

/-- The `RemoteRelayer` struct. -/
structure RemoteRelayer where
  src : Option Conn
  dst : Option Conn
  addr : String
deriving DecidableEq, Repr

/-- The composite literal `&LocalRelayer{}`. -/
def LocalRelayer.zero : LocalRelayer := ⟨none, none, ""⟩

/-- The composite literal `&RemoteRelayer{}`. -/
def RemoteRelayer.zero : RemoteRelayer := ⟨none, none, ""⟩

/-- The `Relayer` interface, closed over its two implementations. -/
inductive Relayer where
  | Local (r : LocalRelayer)
  | Remote (r : RemoteRelayer)
deriving DecidableEq, Repr

/-- What the handshake phase does to the network, in program order. -/
inductive NetEvent where
  | dialTimeout (network addr : String) (seconds : Nat)
  | tlsDial (network addr : String) (insecureSkipVerify : Bool)
  | newRequest (method url : String)
  | reqWrite (req : Request) (conn : Conn)
  | readResponse (conn : Conn)
  | bodyClose (conn : Conn)
  | connClose (conn : Conn)
  | encodeOpenMessage (conn : Conn) (addr : String)
  | decodeOpenAckMessage (conn : Conn)
deriving DecidableEq, Repr

/-- The answers of the outside world during one `SmartRelayer.Relay` call.
Each of these calls is made at most once per relayer, so one answer each is
enough. -/
structure World where
  /-- Go's `net.SplitHostPort`, its error dropped as in the code. -/
  splitHostPort : String → String × String
  /-- Go's `strconv.Atoi`, its error dropped as in the code. -/
  atoi : String → Int
  /-- The classifier lookup `filter.Test`. -/
  filterTest : String → Int → ProxyType
  /-- The call `net.DialTimeout("tcp", addr, 10s)`. -/
  dialTimeout : String → Except LibError Conn
  /-- The call `tls.Dial("tcp4", config.Server, tlscfg)`. -/
  tlsDial : Except LibError Conn
  /-- The call `http.NewRequest("GET", config.Path, nil)`: the error, if any. -/
  newRequest : Option LibError
  /-- The call `req.Write(conn)`. -/
  reqWrite : Option LibError
  /-- The call `http.ReadResponse(bio, nil)`: the status code, or the error. -/
  readResponse : Except LibError Int
  /-- The call `enc.Encode(common.OpenMessage)`. -/
  encodeOpen : Option LibError
  /-- The call `dec.Decode(&oamsg)`: the decoded `Status`, or the error. -/
  decodeOpenAck : Except LibError Bool

/-! ## Handshake phase -/

/-- What a `Begin` call leaves behind: the receiver after the call, the
returned `error` (`none` is `nil`) and the network events of the call. -/
structure BeginResult (ρ : Type) where
  r : ρ
  err : Option GoError
  io : List NetEvent

/-- Method `LocalRelayer.Begin`. -/
def LocalRelayer.Begin (w : World) (r : LocalRelayer) (addr : String) (src : Conn) :
    BeginResult LocalRelayer :=
  let r : LocalRelayer := { r with src := some src, addr := addr }
  let io := [NetEvent.dialTimeout "tcp" addr 10]
  match w.dialTimeout addr with
  | .error err => ⟨r, some (.lib err), io⟩
  | .ok dst => ⟨{ r with dst := some dst }, none, io⟩

/-- The pair `(net.Conn, error)` returned by `dialServer`, with its events. -/
structure DialResult where
  conn : Except GoError Conn
  io : List NetEvent

/-- The upgrade request built by `dialServer`. -/
def upgradeRequest (cfg : xConfig) : Request :=
  { method := "GET"
    url := cfg.Path
    host := cfg.Server
    header := [("Connection", "upgrade"), ("Upgrade", gVersion),
               ("Authorization", "taosocks " ++ cfg.Key)] }

/-- Method `RemoteRelayer.dialServer`. -/
def RemoteRelayer.dialServer (w : World) (cfg : xConfig) : DialResult :=
  let io := [NetEvent.tlsDial "tcp4" cfg.Server cfg.Insecure]
  match w.tlsDial with
  | .error err => ⟨.error (.lib err), io⟩
  | .ok conn =>
    let io := io ++ [NetEvent.newRequest "GET" cfg.Path]
    match w.newRequest with
    | some err => ⟨.error (.lib err), io⟩
    | none =>
      let io := io ++ [NetEvent.reqWrite (upgradeRequest cfg) conn]
      match w.reqWrite with
      | some err => ⟨.error (.lib err), io ++ [NetEvent.connClose conn]⟩
      | none =>
        let io := io ++ [NetEvent.readResponse conn]
        match w.readResponse with
        | .error err => ⟨.error (.lib err), io ++ [NetEvent.connClose conn]⟩
        | .ok statusCode =>
          let io := io ++ [NetEvent.bodyClose conn]
          if statusCode ≠ 101 then
            ⟨.error (.errorsNew "server upgrade protocol error"),
              io ++ [NetEvent.connClose conn]⟩
          else
            ⟨.ok conn, io⟩

/-- Method `RemoteRelayer.Begin`. -/
def RemoteRelayer.Begin (w : World) (cfg : xConfig) (r : RemoteRelayer) (addr : String)
    (src : Conn) : BeginResult RemoteRelayer :=
  let r : RemoteRelayer := { r with src := some src, addr := addr }
  let d := RemoteRelayer.dialServer w cfg
  match d.conn with
  | .error _ => ⟨r, some .ErrCannotDialRemoteServer, d.io⟩
  | .ok dst =>
    let r : RemoteRelayer := { r with dst := some dst }
    let io := d.io ++ [NetEvent.encodeOpenMessage dst r.addr]
    match w.encodeOpen with
    | some err => ⟨r, some (.lib err), io⟩
    | none =>
      let io := io ++ [NetEvent.decodeOpenAckMessage dst]
      match w.decodeOpenAck with
      | .error err => ⟨r, some (.lib err), io⟩
      | .ok status =>
        if !status then
          ⟨r, some .ErrRemoteServerCannotConnectHost, io⟩
        else
          ⟨r, none, io⟩

/-- The call `r.Begin(addr, src)` through the `Relayer` interface. -/
def Relayer.Begin (w : World) (cfg : xConfig) (r : Relayer) (addr : String) (src : Conn) :
    BeginResult Relayer :=
  match r with
  | .Local l =>
    let b := LocalRelayer.Begin w l addr src
    ⟨.Local b.r, b.err, b.io⟩
  | .Remote m =>
    let b := RemoteRelayer.Begin w cfg m addr src
    ⟨.Remote b.r, b.err, b.io⟩

/-! ## Relay phase of the remote relayer -/

/-- What one goroutine of `RemoteRelayer.Relay` does, in program order. -/
inductive RelayEvent where
  | srcRead (src : Option Conn)
  | encodeRelayMessage (dst : Option Conn) (data : List UInt8)
  | decodeRelayMessage (dst : Option Conn)
  | srcWrite (src : Option Conn) (data : List UInt8)
  | wgDone
  | connClose (conn : Option Conn)
deriving DecidableEq, Repr

/-- One answer of `r.src.Read(buf)`: the bytes `buf[:n]` and the error. -/
structure ReadResult where
  data : List UInt8
  err : Option LibError
deriving DecidableEq, Repr

/-- Conversion to `int64`. -/
def wrapInt64 (x : Int) : Int := (x + 2 ^ 63) % 2 ^ 64 - 2 ^ 63

/-- The pair `(int64, error)` returned by a copy loop, with its events. -/
structure CopyResult where
  n : Int
  err : Option GoError
  io : List RelayEvent
deriving DecidableEq, Repr

/-- The `for` loop of `src2dst`.  `reads` holds the answers of the successive
`r.src.Read` calls and `encs` those of the successive `enc.Encode` calls; the
result is `none` when the answers run out while the loop is still waiting in a
call, that is, when the function has not returned. -/
def RemoteRelayer.src2dstLoop (r : RemoteRelayer) :
    List ReadResult → List (Option LibError) → Int → List RelayEvent → Option CopyResult
  | [], _, _, _ => none
  | rd :: reads, encs, all, io =>
    let io := io ++ [RelayEvent.srcRead r.src]
    match rd.err with
    | some err => some ⟨all, some (.lib err), io⟩
    | none =>
      match encs with
      | [] => none
      | enc :: encs =>
        let io := io ++ [RelayEvent.encodeRelayMessage r.dst rd.data]
        match enc with
        | some err => some ⟨all, some (.lib err), io⟩
        | none => RemoteRelayer.src2dstLoop r reads encs (wrapInt64 (all + rd.data.length)) io

/-- Method `RemoteRelayer.src2dst`. -/
def RemoteRelayer.src2dst (r : RemoteRelayer) (reads : List ReadResult)
    (encs : List (Option LibError)) : Option CopyResult :=
  RemoteRelayer.src2dstLoop r reads encs 0 []

/-- The `for` loop of `dst2src`.  `decs` holds the answers of the successive
`dec.Decode` calls (the payload of the decoded `RelayMessage`, or the error) and
`writes` those of the successive `r.src.Write` calls; `none` as in
`src2dstLoop`. -/
def RemoteRelayer.dst2srcLoop (r : RemoteRelayer) :
    List (Except LibError (List UInt8)) → List (Option LibError) → Int → List RelayEvent →
      Option CopyResult
  | [], _, _, _ => none
  | dc :: decs, writes, all, io =>
    let io := io ++ [RelayEvent.decodeRelayMessage r.dst]
    match dc with
    | .error err => some ⟨all, some (.lib err), io⟩
    | .ok data =>
      match writes with
      | [] => none
      | wr :: writes =>
        let io := io ++ [RelayEvent.srcWrite r.src data]
        match wr with
        | some err => some ⟨all, some (.lib err), io⟩
        | none => RemoteRelayer.dst2srcLoop r decs writes (wrapInt64 (all + data.length)) io

/-- Method `RemoteRelayer.dst2src`. -/
def RemoteRelayer.dst2src (r : RemoteRelayer) (decs : List (Except LibError (List UInt8)))
    (writes : List (Option LibError)) : Option CopyResult :=
  RemoteRelayer.dst2srcLoop r decs writes 0 []

/-- What a goroutine of `RemoteRelayer.Relay` does after its copy loop has
returned: `wg.Done()`, then the two closes under `if err != nil`. -/
def RemoteRelayer.afterCopy (r : RemoteRelayer) (c : CopyResult) : CopyResult :=
  let io := c.io ++ [RelayEvent.wgDone]
  if c.err ≠ none then
    { c with io := io ++ [RelayEvent.connClose r.src, RelayEvent.connClose r.dst] }
  else
    { c with io := io }

/-- The first goroutine of `RemoteRelayer.Relay` (the send direction). -/
def RemoteRelayer.Relay_func1 (r : RemoteRelayer) (reads : List ReadResult)
    (encs : List (Option LibError)) : Option CopyResult :=
  (RemoteRelayer.src2dst r reads encs).map (RemoteRelayer.afterCopy r)

/-- The second goroutine of `RemoteRelayer.Relay` (the receive direction). -/
def RemoteRelayer.Relay_func2 (r : RemoteRelayer) (decs : List (Except LibError (List UInt8)))
    (writes : List (Option LibError)) : Option CopyResult :=
  (RemoteRelayer.dst2src r decs writes).map (RemoteRelayer.afterCopy r)

/-- The `RelayResult` struct. -/
structure RelayResult where
  errTx : Option GoError
  errRx : Option GoError
  nTx : Int
  nRx : Int
deriving DecidableEq, Repr

/-- One run of `RemoteRelayer.Relay`: the events of each goroutine, the events
of the caller after `wg.Wait()`, and the returned `RelayResult`.  The order in
which the events of the three interleave is not fixed by the code and is not
part of the run. -/
structure RelayRun where
  txTask : List RelayEvent
  rxTask : List RelayEvent
  afterWait : List RelayEvent
  result : RelayResult
deriving DecidableEq, Repr

/-- Method `RemoteRelayer.Relay`; `none` when one of the two goroutines has not
finished, so that `wg.Wait()` has not returned. -/
def RemoteRelayer.Relay (r : RemoteRelayer) (reads : List ReadResult)
    (encs : List (Option LibError)) (decs : List (Except LibError (List UInt8)))
    (writes : List (Option LibError)) : Option RelayRun :=
  match RemoteRelayer.Relay_func1 r reads encs, RemoteRelayer.Relay_func2 r decs writes with
  | some tx, some rx =>
    some { txTask := tx.io
           rxTask := rx.io
           afterWait := [RelayEvent.connClose r.src, RelayEvent.connClose r.dst]
           result := ⟨tx.err, rx.err, tx.n, rx.n⟩ }
  | _, _ => none

/-! ## Orchestration -/

/-- What `SmartRelayer.Relay` does, in program order.  A `Begin` event carries
the receiver as the call left it, the arguments, the network events of the call
and the returned error. -/
inductive Event where
  | filterTest (hostname : String) (port : Int)
  | Begin (r : Relayer) (addr : String) (src : Conn) (io : List NetEvent)
      (err : Option GoError)
  | connClose (conn : Conn)
  | deleteHost (hostname : String)
  | addHost (hostname : String) (port : Int) (t : ProxyType)
  | beforeRelay (r : Relayer)
  | relay (r : Relayer)
deriving DecidableEq, Repr

/-- The returned `error` of `SmartRelayer.Relay` and its trace. -/
structure RelayOutcome where
  err : Option GoError
  trace : List Event

/-- The local variables of `SmartRelayer.Relay` after the `Begin` block
(lines 348-363). -/
structure BeginState where
  r : Relayer
  beginErr : Option GoError
  useRemote : Bool
  trace : List Event

/-- Lines 348-363 of `SmartRelayer.Relay`: `Begin` on the selected relayer and
the fallback to a fresh `RemoteRelayer`. -/
def SmartRelayer.beginBlock (w : World) (cfg : xConfig) (host : String) (conn : Conn)
    (proxyType : ProxyType) (r : Relayer) (trace : List Event) : BeginState :=
  let b := r.Begin w cfg host conn
  let trace := trace ++ [Event.Begin b.r host conn b.io b.err]
  match b.err with
  | none => ⟨b.r, none, false, trace⟩
  | some err =>
    match b.r with
    | .Local _ =>
      if proxyType ≠ .proxyTypeDirect then
        let b2 := (Relayer.Remote RemoteRelayer.zero).Begin w cfg host conn
        let trace := trace ++ [Event.Begin b2.r host conn b2.io b2.err]
        match b2.err with
        | none => ⟨b2.r, none, true, trace⟩
        | some _ => ⟨b2.r, some err, false, trace⟩
      else
        ⟨b.r, some err, false, trace⟩
    | .Remote _ => ⟨b.r, some err, false, trace⟩

/-- Lines 365-393 of `SmartRelayer.Relay`: the failure block, the learning
step, the callback and the relay. -/
def SmartRelayer.finishBlock (conn : Conn) (beforeRelay : Option (Relayer → Option GoError))
    (hostname : String) (port : Int) (proxyType : ProxyType) (s : BeginState) :
    RelayOutcome :=
  match s.beginErr with
  | some beginErr =>
    let trace := s.trace ++ [Event.connClose conn]
    let trace :=
      if beginErr ≠ .ErrCannotDialRemoteServer then
        match proxyType with
        | .proxyTypeAutoDirect | .proxyTypeAutoProxy => trace ++ [Event.deleteHost hostname]
        | _ => trace
      else trace
    ⟨some (.errorsNew "no relayer can relay such host"), trace⟩
  | none =>
    let trace :=
      if s.useRemote then
        s.trace ++ [Event.addHost hostname port .proxyTypeAutoProxy]
      else s.trace
    match beforeRelay with
    | some cb =>
      let trace := trace ++ [Event.beforeRelay s.r]
      if (cb s.r).isSome then
        ⟨some (.errorsNew "beforeRelay returns an error"), trace ++ [Event.connClose conn]⟩
      else
        ⟨none, trace ++ [Event.relay s.r]⟩
    | none => ⟨none, trace ++ [Event.relay s.r]⟩

/-- The `hostname` variable of `SmartRelayer.Relay`. -/
def SmartRelayer.hostname (w : World) (host : String) : String :=
  (w.splitHostPort host).1

/-- The `port` variable of `SmartRelayer.Relay`. -/
def SmartRelayer.port (w : World) (host : String) : Int :=
  w.atoi (w.splitHostPort host).2

/-- The `proxyType` variable of `SmartRelayer.Relay`. -/
def SmartRelayer.proxyType (w : World) (host : String) : ProxyType :=
  w.filterTest (SmartRelayer.hostname w host) (SmartRelayer.port w host)

/-- Method `SmartRelayer.Relay`.  `beforeRelay = none` is the `nil` callback; a
callback is given by the error it returns on the relayer it is handed. -/
def SmartRelayer.Relay (w : World) (cfg : xConfig) (host : String) (conn : Conn)
    (beforeRelay : Option (Relayer → Option GoError)) : RelayOutcome :=
  let hostname := SmartRelayer.hostname w host
  let port := SmartRelayer.port w host
  let proxyType := SmartRelayer.proxyType w host
  let trace := [Event.filterTest hostname port]
  match proxyType with
  | .proxyTypeDirect | .proxyTypeAutoDirect =>
    SmartRelayer.finishBlock conn beforeRelay hostname port proxyType
      (SmartRelayer.beginBlock w cfg host conn proxyType (.Local LocalRelayer.zero) trace)
  | .proxyTypeProxy | .proxyTypeAutoProxy =>
    SmartRelayer.finishBlock conn beforeRelay hostname port proxyType
      (SmartRelayer.beginBlock w cfg host conn proxyType (.Remote RemoteRelayer.zero) trace)
  | .proxyTypeReject =>
    ⟨some (.errorsNew ("x host is rejected: " ++ hostname)), trace⟩

/-! ## Observers and sample inputs -/

/-- Is the event a `Begin` call? -/
def Event.isBegin : Event → Bool
  | .Begin _ _ _ _ _ => true
  | _ => false

/-- Is the event a call of the `beforeRelay` callback? -/
def Event.isCallback : Event → Bool
  | .beforeRelay _ => true
  | _ => false

/-- A world for the examples: every host is classified `t`, the direct dial
succeeds iff `dialOk`, the TLS dial succeeds iff `tlsOk`, the upgrade response
has status `status` and the `OpenAckMessage` has `Status = ack`. -/
def exampleWorld (t : ProxyType) (dialOk tlsOk : Bool) (status : Int) (ack : Bool) : World :=
  { splitHostPort := fun _ => ("example.com", "443")
    atoi := fun _ => 443
    filterTest := fun _ _ => t
    dialTimeout := fun _ => if dialOk then .ok 7 else .error (.other 111)
    tlsDial := if tlsOk then .ok 9 else .error (.other 110)
    newRequest := none
    reqWrite := none
    readResponse := .ok status
    encodeOpen := none
    decodeOpenAck := .ok ack }

/-- A configuration for the examples (the flag defaults of `parseConfig`). -/
def exampleConfig : xConfig := ⟨"0.0.0.0:1080", "127.0.0.1:1081", false, "", "/"⟩

/-! ## Theorems -/

/-- C4: when the classification is `Reject`, `SmartRelayer.Relay` returns the
rejection error (not `nil`) after the classifier lookup alone: no `Begin` of any
relayer, no `AddHost`, no `DeleteHost`, no callback and no `Relay()`. -/
theorem C4_reject_returns_immediately (w : World) (cfg : xConfig) (host : String) (conn : Conn)
    (beforeRelay : Option (Relayer → Option GoError))
    (hrej : SmartRelayer.proxyType w host = .proxyTypeReject) :
    (SmartRelayer.Relay w cfg host conn beforeRelay).err
        = some (.errorsNew ("x host is rejected: " ++ SmartRelayer.hostname w host)) ∧
    (SmartRelayer.Relay w cfg host conn beforeRelay).err ≠ none ∧
    (SmartRelayer.Relay w cfg host conn beforeRelay).trace
        = [Event.filterTest (SmartRelayer.hostname w host) (SmartRelayer.port w host)] ∧
    (∀ r a s io e, Event.Begin r a s io e ∉ (SmartRelayer.Relay w cfg host conn beforeRelay).trace) ∧
    (∀ h p t, Event.addHost h p t ∉ (SmartRelayer.Relay w cfg host conn beforeRelay).trace) ∧
    (∀ h, Event.deleteHost h ∉ (SmartRelayer.Relay w cfg host conn beforeRelay).trace) ∧
    (∀ r, Event.beforeRelay r ∉ (SmartRelayer.Relay w cfg host conn beforeRelay).trace) ∧
    (∀ r, Event.relay r ∉ (SmartRelayer.Relay w cfg host conn beforeRelay).trace) := by
  simp [SmartRelayer.Relay, hrej]

/-- C4, at a concrete input: a rejected host and a callback that would succeed. -/
theorem C4_reject_returns_immediately_witness :
    SmartRelayer.proxyType (exampleWorld .proxyTypeReject true true 101 true) "example.com:443"
        = .proxyTypeReject ∧
    (SmartRelayer.Relay (exampleWorld .proxyTypeReject true true 101 true) exampleConfig
        "example.com:443" 1 (some (fun _ => none))).trace
        = [Event.filterTest "example.com" 443] :=
  ⟨rfl, (C4_reject_returns_immediately (exampleWorld .proxyTypeReject true true 101 true)
    exampleConfig "example.com:443" 1 (some (fun _ => none)) rfl).2.2.1⟩

/-- C3: when the classification is the authoritative `Direct` and the direct
dial fails, no `RemoteRelayer.Begin` is attempted (the failed local `Begin` is
the only one), neither `AddHost` nor `DeleteHost` is requested, the client
connection is closed, neither the callback nor `Relay()` is invoked, and an
error is returned. -/
theorem C3_direct_failure_no_fallback (w : World) (cfg : xConfig) (host : String) (conn : Conn)
    (beforeRelay : Option (Relayer → Option GoError)) (e : GoError)
    (hdirect : SmartRelayer.proxyType w host = .proxyTypeDirect)
    (hfail : (LocalRelayer.Begin w LocalRelayer.zero host conn).err = some e) :
    (SmartRelayer.Relay w cfg host conn beforeRelay).trace
        = [Event.filterTest (SmartRelayer.hostname w host) (SmartRelayer.port w host),
           Event.Begin (.Local (LocalRelayer.Begin w LocalRelayer.zero host conn).r) host conn
             (LocalRelayer.Begin w LocalRelayer.zero host conn).io (some e),
           Event.connClose conn] ∧
    (∀ m a s io e', Event.Begin (.Remote m) a s io e'
        ∉ (SmartRelayer.Relay w cfg host conn beforeRelay).trace) ∧
    (∀ h p t, Event.addHost h p t ∉ (SmartRelayer.Relay w cfg host conn beforeRelay).trace) ∧
    (∀ h, Event.deleteHost h ∉ (SmartRelayer.Relay w cfg host conn beforeRelay).trace) ∧
    Event.connClose conn ∈ (SmartRelayer.Relay w cfg host conn beforeRelay).trace ∧
    (∀ r, Event.beforeRelay r ∉ (SmartRelayer.Relay w cfg host conn beforeRelay).trace) ∧
    (∀ r, Event.relay r ∉ (SmartRelayer.Relay w cfg host conn beforeRelay).trace) ∧
    (SmartRelayer.Relay w cfg host conn beforeRelay).err
        = some (.errorsNew "no relayer can relay such host") := by
  simp [SmartRelayer.Relay, SmartRelayer.beginBlock, SmartRelayer.finishBlock, Relayer.Begin,
    hdirect, hfail]

/-- C3, at a concrete input: a `Direct` host whose direct dial fails. -/
theorem C3_direct_failure_no_fallback_witness :
    SmartRelayer.proxyType (exampleWorld .proxyTypeDirect false true 101 true) "example.com:443"
        = .proxyTypeDirect ∧
    (LocalRelayer.Begin (exampleWorld .proxyTypeDirect false true 101 true) LocalRelayer.zero
        "example.com:443" 1).err = some (.lib (.other 111)) ∧
    (SmartRelayer.Relay (exampleWorld .proxyTypeDirect false true 101 true) exampleConfig
        "example.com:443" 1 none).err = some (.errorsNew "no relayer can relay such host") :=
  ⟨rfl, rfl, (C3_direct_failure_no_fallback (exampleWorld .proxyTypeDirect false true 101 true)
    exampleConfig "example.com:443" 1 none (.lib (.other 111)) rfl rfl).2.2.2.2.2.2.2⟩

/-- C5: when the classification is `Proxy` or `AutoProxy`, whatever the
handshakes answer, the only `Begin` of the whole call is one
`RemoteRelayer.Begin` (so no `LocalRelayer.Begin`, and no direct-dial retry
after its failure); when the classification is `Direct` or `AutoDirect`, the
first `Begin` is a `LocalRelayer.Begin`. -/
theorem C5_proxy_never_dials_directly (w : World) (cfg : xConfig) (host : String) (conn : Conn)
    (beforeRelay : Option (Relayer → Option GoError)) :
    ((SmartRelayer.proxyType w host = .proxyTypeProxy ∨
        SmartRelayer.proxyType w host = .proxyTypeAutoProxy) →
      (SmartRelayer.Relay w cfg host conn beforeRelay).trace.filter Event.isBegin
          = [Event.Begin (.Remote (RemoteRelayer.Begin w cfg RemoteRelayer.zero host conn).r)
              host conn (RemoteRelayer.Begin w cfg RemoteRelayer.zero host conn).io
              (RemoteRelayer.Begin w cfg RemoteRelayer.zero host conn).err] ∧
      (∀ l a s io e, Event.Begin (.Local l) a s io e
          ∉ (SmartRelayer.Relay w cfg host conn beforeRelay).trace)) ∧
    ((SmartRelayer.proxyType w host = .proxyTypeDirect ∨
        SmartRelayer.proxyType w host = .proxyTypeAutoDirect) →
      ((SmartRelayer.Relay w cfg host conn beforeRelay).trace.filter Event.isBegin).head?
          = some (Event.Begin (.Local (LocalRelayer.Begin w LocalRelayer.zero host conn).r)
              host conn (LocalRelayer.Begin w LocalRelayer.zero host conn).io
              (LocalRelayer.Begin w LocalRelayer.zero host conn).err)) := by
  constructor
  · intro h
    rcases h with h | h <;>
    cases hb : (RemoteRelayer.Begin w cfg RemoteRelayer.zero host conn).err <;>
    cases beforeRelay <;>
    simp [SmartRelayer.Relay, SmartRelayer.beginBlock, SmartRelayer.finishBlock, Relayer.Begin,
      h, hb, Event.isBegin] <;>
    split <;> simp [Event.isBegin]
  · intro h
    rcases h with h | h <;>
    cases hb : (LocalRelayer.Begin w LocalRelayer.zero host conn).err <;>
    cases hb2 : (RemoteRelayer.Begin w cfg RemoteRelayer.zero host conn).err <;>
    cases beforeRelay <;>
    simp [SmartRelayer.Relay, SmartRelayer.beginBlock, SmartRelayer.finishBlock, Relayer.Begin,
      h, hb, hb2, Event.isBegin] <;>
    split <;> simp [Event.isBegin]

/-- C5, at a concrete input: a `Proxy` host whose tunnel server cannot be
dialled; no direct dial follows. -/
theorem C5_proxy_never_dials_directly_witness :
    (SmartRelayer.proxyType (exampleWorld .proxyTypeProxy true false 101 true) "example.com:443"
        = .proxyTypeProxy ∨
      SmartRelayer.proxyType (exampleWorld .proxyTypeProxy true false 101 true) "example.com:443"
        = .proxyTypeAutoProxy) ∧
    (∀ l a s io e, Event.Begin (.Local l) a s io e
        ∉ (SmartRelayer.Relay (exampleWorld .proxyTypeProxy true false 101 true) exampleConfig
            "example.com:443" 1 none).trace) :=
  ⟨Or.inl rfl, ((C5_proxy_never_dials_directly (exampleWorld .proxyTypeProxy true false 101 true)
    exampleConfig "example.com:443" 1 none).1 (Or.inl rfl)).2⟩

/-- C6: when the classification is `Proxy` or `AutoProxy` and the
`RemoteRelayer.Begin` fails with error `e`, `DeleteHost(hostname)` is requested
if and only if the classification is `AutoProxy` and `e` is not
`ErrCannotDialRemoteServer` (and no other host is ever deleted); `AddHost` is
not requested; the client connection is closed and an error is returned. -/
theorem C6_remote_failure_deletes_learned_rule (w : World) (cfg : xConfig) (host : String)
    (conn : Conn) (beforeRelay : Option (Relayer → Option GoError)) (e : GoError)
    (hproxy : SmartRelayer.proxyType w host = .proxyTypeProxy ∨
      SmartRelayer.proxyType w host = .proxyTypeAutoProxy)
    (hfail : (RemoteRelayer.Begin w cfg RemoteRelayer.zero host conn).err = some e) :
    (Event.deleteHost (SmartRelayer.hostname w host)
        ∈ (SmartRelayer.Relay w cfg host conn beforeRelay).trace ↔
      (SmartRelayer.proxyType w host = .proxyTypeAutoProxy ∧
        e ≠ .ErrCannotDialRemoteServer)) ∧
    (∀ h, Event.deleteHost h ∈ (SmartRelayer.Relay w cfg host conn beforeRelay).trace →
      h = SmartRelayer.hostname w host) ∧
    (∀ h p t, Event.addHost h p t ∉ (SmartRelayer.Relay w cfg host conn beforeRelay).trace) ∧
    Event.connClose conn ∈ (SmartRelayer.Relay w cfg host conn beforeRelay).trace ∧
    (SmartRelayer.Relay w cfg host conn beforeRelay).err
        = some (.errorsNew "no relayer can relay such host") := by
  rcases hproxy with h | h <;>
  by_cases he : e = .ErrCannotDialRemoteServer <;>
  simp [SmartRelayer.Relay, SmartRelayer.beginBlock, SmartRelayer.finishBlock, Relayer.Begin,
    h, hfail, he]

/-- C6, at a concrete input: an `AutoProxy` host for which the server answers
`Status = false`; the learned rule is deleted. -/
theorem C6_remote_failure_deletes_learned_rule_witness :
    (SmartRelayer.proxyType (exampleWorld .proxyTypeAutoProxy true true 101 false)
        "example.com:443" = .proxyTypeProxy ∨
      SmartRelayer.proxyType (exampleWorld .proxyTypeAutoProxy true true 101 false)
        "example.com:443" = .proxyTypeAutoProxy) ∧
    (RemoteRelayer.Begin (exampleWorld .proxyTypeAutoProxy true true 101 false) exampleConfig
        RemoteRelayer.zero "example.com:443" 1).err = some .ErrRemoteServerCannotConnectHost ∧
    (Event.deleteHost (SmartRelayer.hostname (exampleWorld .proxyTypeAutoProxy true true 101 false)
          "example.com:443")
        ∈ (SmartRelayer.Relay (exampleWorld .proxyTypeAutoProxy true true 101 false) exampleConfig
            "example.com:443" 1 none).trace ↔
      (SmartRelayer.proxyType (exampleWorld .proxyTypeAutoProxy true true 101 false)
          "example.com:443" = .proxyTypeAutoProxy ∧
        GoError.ErrRemoteServerCannotConnectHost ≠ .ErrCannotDialRemoteServer)) :=
  ⟨Or.inr rfl, rfl,
    (C6_remote_failure_deletes_learned_rule (exampleWorld .proxyTypeAutoProxy true true 101 false)
      exampleConfig "example.com:443" 1 none .ErrRemoteServerCannotConnectHost (Or.inr rfl) rfl).1⟩

/-- The method `LocalRelayer.Begin` never returns `ErrCannotDialRemoteServer`. -/
theorem LocalRelayer.Begin_err_ne_sentinel (w : World) (r : LocalRelayer) (addr : String)
    (src : Conn) :
    (LocalRelayer.Begin w r addr src).err ≠ some .ErrCannotDialRemoteServer := by
  unfold LocalRelayer.Begin
  cases w.dialTimeout addr <;> simp

/-- The code on the path of C1, for every world: when the classification is
`AutoDirect` and both the direct dial and the tunnel `Begin` fail, `beginErr`
still holds the error of the direct dial, so `DeleteHost(hostname)` is
requested whatever the tunnel failure was. -/
theorem SmartRelayer.autoDirect_double_failure_deletes (w : World) (cfg : xConfig)
    (host : String) (conn : Conn) (beforeRelay : Option (Relayer → Option GoError))
    (e1 e2 : GoError)
    (hauto : SmartRelayer.proxyType w host = .proxyTypeAutoDirect)
    (hlocal : (LocalRelayer.Begin w LocalRelayer.zero host conn).err = some e1)
    (hremote : (RemoteRelayer.Begin w cfg RemoteRelayer.zero host conn).err = some e2) :
    Event.deleteHost (SmartRelayer.hostname w host)
      ∈ (SmartRelayer.Relay w cfg host conn beforeRelay).trace := by
  have hne : e1 ≠ .ErrCannotDialRemoteServer := by
    intro h
    subst h
    exact LocalRelayer.Begin_err_ne_sentinel w LocalRelayer.zero host conn hlocal
  simp [SmartRelayer.Relay, SmartRelayer.beginBlock, SmartRelayer.finishBlock, Relayer.Begin,
    hauto, hlocal, hremote, hne]

/-- C1, the code at the failing input: the host is `AutoDirect`, the direct dial
fails, and the tunnel `Begin` fails with `ErrCannotDialRemoteServer` (the TLS
dial to the server fails); `DeleteHost("example.com")` is requested all the
same. -/
theorem C1_deletes_rule_when_server_unreachable :
    SmartRelayer.proxyType (exampleWorld .proxyTypeAutoDirect false false 101 true)
        "example.com:443" = .proxyTypeAutoDirect ∧
    (LocalRelayer.Begin (exampleWorld .proxyTypeAutoDirect false false 101 true)
        LocalRelayer.zero "example.com:443" 1).err = some (.lib (.other 111)) ∧
    (RemoteRelayer.Begin (exampleWorld .proxyTypeAutoDirect false false 101 true) exampleConfig
        RemoteRelayer.zero "example.com:443" 1).err = some .ErrCannotDialRemoteServer ∧
    (SmartRelayer.Relay (exampleWorld .proxyTypeAutoDirect false false 101 true) exampleConfig
        "example.com:443" 1 none).trace
      = [Event.filterTest "example.com" 443,
         Event.Begin (.Local ⟨some 1, none, "example.com:443"⟩) "example.com:443" 1
           [NetEvent.dialTimeout "tcp" "example.com:443" 10] (some (.lib (.other 111))),
         Event.Begin (.Remote ⟨some 1, none, "example.com:443"⟩) "example.com:443" 1
           [NetEvent.tlsDial "tcp4" "127.0.0.1:1081" false] (some .ErrCannotDialRemoteServer),
         Event.connClose 1,
         Event.deleteHost "example.com"] :=
  ⟨rfl, rfl, rfl, rfl⟩

/-- C2: when the classification is `AutoDirect` and the direct dial fails, the
`Begin` calls are exactly the failed local one and then one on a fresh
`RemoteRelayer` with the same host and client connection; if that one succeeds,
`AddHost(hostname, port, AutoProxy)` is requested exactly once, right after it,
with `hostname` and `port` the two parts `net.SplitHostPort` splits `host` into
(the port through `strconv.Atoi`), and nothing else is added, no `DeleteHost`
is requested, the client connection is closed only if the callback fails, and
the remote relayer is the one handed to `beforeRelay` and used for `Relay()`. -/
theorem C2_fallback_success_learns_autoproxy (w : World) (cfg : xConfig) (host : String)
    (conn : Conn) (beforeRelay : Option (Relayer → Option GoError)) (e : GoError)
    (hauto : SmartRelayer.proxyType w host = .proxyTypeAutoDirect)
    (hlocal : (LocalRelayer.Begin w LocalRelayer.zero host conn).err = some e) :
    (SmartRelayer.Relay w cfg host conn beforeRelay).trace.filter Event.isBegin
        = [Event.Begin (.Local (LocalRelayer.Begin w LocalRelayer.zero host conn).r) host conn
             (LocalRelayer.Begin w LocalRelayer.zero host conn).io (some e),
           Event.Begin (.Remote (RemoteRelayer.Begin w cfg RemoteRelayer.zero host conn).r)
             host conn (RemoteRelayer.Begin w cfg RemoteRelayer.zero host conn).io
             (RemoteRelayer.Begin w cfg RemoteRelayer.zero host conn).err] ∧
    ((RemoteRelayer.Begin w cfg RemoteRelayer.zero host conn).err = none →
      (SmartRelayer.Relay w cfg host conn beforeRelay).trace.take 4
          = [Event.filterTest (w.splitHostPort host).1 (w.atoi (w.splitHostPort host).2),
             Event.Begin (.Local (LocalRelayer.Begin w LocalRelayer.zero host conn).r) host conn
               (LocalRelayer.Begin w LocalRelayer.zero host conn).io (some e),
             Event.Begin (.Remote (RemoteRelayer.Begin w cfg RemoteRelayer.zero host conn).r)
               host conn (RemoteRelayer.Begin w cfg RemoteRelayer.zero host conn).io none,
             Event.addHost (w.splitHostPort host).1 (w.atoi (w.splitHostPort host).2)
               .proxyTypeAutoProxy] ∧
      (SmartRelayer.Relay w cfg host conn beforeRelay).trace.count
          (Event.addHost (w.splitHostPort host).1 (w.atoi (w.splitHostPort host).2)
            .proxyTypeAutoProxy) = 1 ∧
      (∀ h p t, Event.addHost h p t ∈ (SmartRelayer.Relay w cfg host conn beforeRelay).trace →
        h = (w.splitHostPort host).1 ∧ p = w.atoi (w.splitHostPort host).2 ∧
          t = .proxyTypeAutoProxy) ∧
      (∀ h, Event.deleteHost h ∉ (SmartRelayer.Relay w cfg host conn beforeRelay).trace) ∧
      (Event.connClose conn ∈ (SmartRelayer.Relay w cfg host conn beforeRelay).trace ↔
        ∃ cb, beforeRelay = some cb ∧
          cb (.Remote (RemoteRelayer.Begin w cfg RemoteRelayer.zero host conn).r) ≠ none) ∧
      (∀ r, Event.beforeRelay r ∈ (SmartRelayer.Relay w cfg host conn beforeRelay).trace ↔
        (r = .Remote (RemoteRelayer.Begin w cfg RemoteRelayer.zero host conn).r ∧
          beforeRelay ≠ none)) ∧
      (∀ r, Event.relay r ∈ (SmartRelayer.Relay w cfg host conn beforeRelay).trace ↔
        (r = .Remote (RemoteRelayer.Begin w cfg RemoteRelayer.zero host conn).r ∧
          ∀ cb, beforeRelay = some cb →
            cb (.Remote (RemoteRelayer.Begin w cfg RemoteRelayer.zero host conn).r)
              = none))) := by
  refine ⟨?_, ?_⟩
  · generalize hout : SmartRelayer.Relay w cfg host conn beforeRelay = out
    cases hb2 : (RemoteRelayer.Begin w cfg RemoteRelayer.zero host conn).err <;>
    cases beforeRelay <;>
    simp [SmartRelayer.Relay, SmartRelayer.beginBlock, SmartRelayer.finishBlock, Relayer.Begin,
      hauto, hlocal, hb2] at hout <;>
    subst hout <;>
    (try split_ifs) <;>
    simp [Event.isBegin]
  · intro hremote
    cases beforeRelay with
    | none =>
      simp [SmartRelayer.Relay, SmartRelayer.beginBlock, SmartRelayer.finishBlock, Relayer.Begin,
        hauto, hlocal, hremote, SmartRelayer.hostname, SmartRelayer.port]
    | some cb =>
      cases hcb : cb (.Remote (RemoteRelayer.Begin w cfg RemoteRelayer.zero host conn).r) <;>
      simp [SmartRelayer.Relay, SmartRelayer.beginBlock, SmartRelayer.finishBlock, Relayer.Begin,
        hauto, hlocal, hremote, hcb, SmartRelayer.hostname, SmartRelayer.port]

/-- C2, at a concrete input: an `AutoDirect` host whose direct dial fails and
whose tunnel opens; the rule `AutoProxy` is recorded once. -/
theorem C2_fallback_success_learns_autoproxy_witness :
    SmartRelayer.proxyType (exampleWorld .proxyTypeAutoDirect false true 101 true)
        "example.com:443" = .proxyTypeAutoDirect ∧
    (LocalRelayer.Begin (exampleWorld .proxyTypeAutoDirect false true 101 true)
        LocalRelayer.zero "example.com:443" 1).err = some (.lib (.other 111)) ∧
    (RemoteRelayer.Begin (exampleWorld .proxyTypeAutoDirect false true 101 true) exampleConfig
        RemoteRelayer.zero "example.com:443" 1).err = none ∧
    (SmartRelayer.Relay (exampleWorld .proxyTypeAutoDirect false true 101 true) exampleConfig
        "example.com:443" 1 (some (fun _ => none))).trace.count
      (Event.addHost
        ((exampleWorld .proxyTypeAutoDirect false true 101 true).splitHostPort
          "example.com:443").1
        ((exampleWorld .proxyTypeAutoDirect false true 101 true).atoi
          ((exampleWorld .proxyTypeAutoDirect false true 101 true).splitHostPort
            "example.com:443").2)
        .proxyTypeAutoProxy) = 1 :=
  ⟨rfl, rfl, rfl,
    ((C2_fallback_success_learns_autoproxy (exampleWorld .proxyTypeAutoDirect false true 101 true)
      exampleConfig "example.com:443" 1 (some (fun _ => none)) (.lib (.other 111))
      rfl rfl).2 rfl).2.1⟩

/-- C9: in `SmartRelayer.Relay` the callback is invoked at most once; when it is
invoked on `r`, a `Begin` on `r` with the call's host and connection has
returned `nil` before it; `Relay()` is called on `r` if and only if a `Begin` on
`r` returned `nil` and the callback is absent or returns `nil` on `r`; and when
the callback, invoked on `r`, returns an error, the client connection is closed,
`Relay()` is not called and an error is returned. -/
theorem C9_callback_then_relay (w : World) (cfg : xConfig) (host : String) (conn : Conn)
    (beforeRelay : Option (Relayer → Option GoError)) :
    ((SmartRelayer.Relay w cfg host conn beforeRelay).trace.filter Event.isCallback).length ≤ 1 ∧
    (∀ r, Event.beforeRelay r ∈ (SmartRelayer.Relay w cfg host conn beforeRelay).trace →
      beforeRelay ≠ none ∧
      ∃ io, Event.Begin r host conn io none
        ∈ (SmartRelayer.Relay w cfg host conn beforeRelay).trace.takeWhile
            (fun ev => !ev.isCallback)) ∧
    (∀ r, Event.relay r ∈ (SmartRelayer.Relay w cfg host conn beforeRelay).trace ↔
      ((∃ io, Event.Begin r host conn io none
          ∈ (SmartRelayer.Relay w cfg host conn beforeRelay).trace) ∧
        ∀ cb, beforeRelay = some cb → cb r = none)) ∧
    (∀ cb r, beforeRelay = some cb →
      Event.beforeRelay r ∈ (SmartRelayer.Relay w cfg host conn beforeRelay).trace →
      cb r ≠ none →
        Event.connClose conn ∈ (SmartRelayer.Relay w cfg host conn beforeRelay).trace ∧
        (∀ r2, Event.relay r2 ∉ (SmartRelayer.Relay w cfg host conn beforeRelay).trace) ∧
        (SmartRelayer.Relay w cfg host conn beforeRelay).err
          = some (.errorsNew "beforeRelay returns an error")) := by
  generalize hout : SmartRelayer.Relay w cfg host conn beforeRelay = out
  rcases beforeRelay with _ | cb
  · cases hb1 : (LocalRelayer.Begin w LocalRelayer.zero host conn).err <;>
    cases hb2 : (RemoteRelayer.Begin w cfg RemoteRelayer.zero host conn).err <;>
    cases hpt : SmartRelayer.proxyType w host <;>
    simp [SmartRelayer.Relay, SmartRelayer.beginBlock, SmartRelayer.finishBlock, Relayer.Begin,
      hpt, hb1, hb2] at hout <;>
    subst hout <;>
    (try split_ifs) <;>
    simp [Event.isCallback]
  · cases hc1 : cb (.Local (LocalRelayer.Begin w LocalRelayer.zero host conn).r) <;>
    cases hc2 : cb (.Remote (RemoteRelayer.Begin w cfg RemoteRelayer.zero host conn).r) <;>
    cases hb1 : (LocalRelayer.Begin w LocalRelayer.zero host conn).err <;>
    cases hb2 : (RemoteRelayer.Begin w cfg RemoteRelayer.zero host conn).err <;>
    cases hpt : SmartRelayer.proxyType w host <;>
    simp [SmartRelayer.Relay, SmartRelayer.beginBlock, SmartRelayer.finishBlock, Relayer.Begin,
      hpt, hb1, hb2, hc1, hc2] at hout <;>
    subst hout <;>
    (try split_ifs) <;>
    simp [Event.isCallback, hc1, hc2]

/-- C9, at a concrete input: a `Direct` host whose dial succeeds and a callback
that fails; the connection is closed and no relay follows. -/
theorem C9_callback_then_relay_witness :
    Event.beforeRelay (.Local ⟨some 1, some 7, "example.com:443"⟩)
      ∈ (SmartRelayer.Relay (exampleWorld .proxyTypeDirect true true 101 true) exampleConfig
          "example.com:443" 1 (some (fun _ => some (.errorsNew "reply")))).trace ∧
    (SmartRelayer.Relay (exampleWorld .proxyTypeDirect true true 101 true) exampleConfig
        "example.com:443" 1 (some (fun _ => some (.errorsNew "reply")))).err
      = some (.errorsNew "beforeRelay returns an error") :=
  ⟨by decide,
    ((C9_callback_then_relay (exampleWorld .proxyTypeDirect true true 101 true) exampleConfig
      "example.com:443" 1 (some (fun _ => some (.errorsNew "reply")))).2.2.2
      (fun _ => some (.errorsNew "reply")) (.Local ⟨some 1, some 7, "example.com:443"⟩)
      rfl (by decide) (by simp)).2.2⟩

/-- When `dialServer` succeeds, every one of its calls has succeeded, the
status was 101, and its events are the five calls, none of them a close. -/
theorem RemoteRelayer.dialServer_ok (w : World) (cfg : xConfig) (dst : Conn)
    (h : (RemoteRelayer.dialServer w cfg).conn = .ok dst) :
    w.tlsDial = .ok dst ∧ w.newRequest = none ∧ w.reqWrite = none ∧
    w.readResponse = .ok 101 ∧
    (RemoteRelayer.dialServer w cfg).io
      = [NetEvent.tlsDial "tcp4" cfg.Server cfg.Insecure, NetEvent.newRequest "GET" cfg.Path,
         NetEvent.reqWrite (upgradeRequest cfg) dst, NetEvent.readResponse dst,
         NetEvent.bodyClose dst] := by
  unfold RemoteRelayer.dialServer at h ⊢
  cases h1 : w.tlsDial <;> cases h2 : w.newRequest <;> cases h3 : w.reqWrite <;>
    cases h4 : w.readResponse <;> simp [h1, h2, h3, h4] at h ⊢
  rename_i c status
  by_cases hs : status = 101
  · simp [hs] at h ⊢
    exact h
  · simp [hs] at h

/-- C7: when the transport and the upgrade handshake succeed (so `dialServer`
returns the tunnel connection `dst`), the `OpenMessage` is written and the
decoded `OpenAckMessage` has `Status = false`, `RemoteRelayer.Begin` returns
`ErrRemoteServerCannotConnectHost`, a value different from
`ErrCannotDialRemoteServer`; `r.dst` is `dst`, and no connection is closed
during the call. -/
theorem C7_open_ack_false_keeps_tunnel (w : World) (cfg : xConfig) (r : RemoteRelayer)
    (addr : String) (src dst : Conn)
    (hdial : (RemoteRelayer.dialServer w cfg).conn = .ok dst)
    (henc : w.encodeOpen = none)
    (hack : w.decodeOpenAck = .ok false) :
    (RemoteRelayer.Begin w cfg r addr src).err = some .ErrRemoteServerCannotConnectHost ∧
    GoError.ErrRemoteServerCannotConnectHost ≠ GoError.ErrCannotDialRemoteServer ∧
    (RemoteRelayer.Begin w cfg r addr src).r.dst = some dst ∧
    NetEvent.encodeOpenMessage dst addr ∈ (RemoteRelayer.Begin w cfg r addr src).io ∧
    (∀ c, NetEvent.connClose c ∉ (RemoteRelayer.Begin w cfg r addr src).io) := by
  have hio := (RemoteRelayer.dialServer_ok w cfg dst hdial).2.2.2.2
  simp [RemoteRelayer.Begin, hdial, henc, hack, hio]

/-- C7, at a concrete input: the server upgrades and answers `Status = false`. -/
theorem C7_open_ack_false_keeps_tunnel_witness :
    (RemoteRelayer.dialServer (exampleWorld .proxyTypeProxy true true 101 false)
        exampleConfig).conn = .ok 9 ∧
    (exampleWorld .proxyTypeProxy true true 101 false).encodeOpen = none ∧
    (exampleWorld .proxyTypeProxy true true 101 false).decodeOpenAck = .ok false ∧
    (RemoteRelayer.Begin (exampleWorld .proxyTypeProxy true true 101 false) exampleConfig
        RemoteRelayer.zero "example.com:443" 1).r.dst = some 9 :=
  ⟨rfl, rfl, rfl,
    (C7_open_ack_false_keeps_tunnel (exampleWorld .proxyTypeProxy true true 101 false)
      exampleConfig RemoteRelayer.zero "example.com:443" 1 9 rfl rfl rfl).2.2.1⟩

/-- C8: when the upgrade response has a status other than 101, the transport
connection is closed (the last event of `Begin`) and `RemoteRelayer.Begin`
returns `ErrCannotDialRemoteServer`; and whenever a call inside `dialServer`
fails (the TLS dial, building the request, writing it, reading the response) or
the status is not 101, `Begin` returns `ErrCannotDialRemoteServer`, writes no
`OpenMessage` and leaves `r.dst` as it was. -/
theorem C8_dial_failure_is_sentinel (w : World) (cfg : xConfig) (r : RemoteRelayer)
    (addr : String) (src : Conn) :
    (∀ c status, w.tlsDial = .ok c → w.newRequest = none → w.reqWrite = none →
      w.readResponse = .ok status → status ≠ 101 →
        (RemoteRelayer.Begin w cfg r addr src).err = some .ErrCannotDialRemoteServer ∧
        (RemoteRelayer.Begin w cfg r addr src).io.getLast? = some (NetEvent.connClose c)) ∧
    (((∃ e, w.tlsDial = .error e) ∨ (∃ e, w.newRequest = some e) ∨ (∃ e, w.reqWrite = some e) ∨
        (∃ e, w.readResponse = .error e) ∨ (∃ status, w.readResponse = .ok status ∧ status ≠ 101)) →
      (RemoteRelayer.Begin w cfg r addr src).err = some .ErrCannotDialRemoteServer ∧
      (∀ c a, NetEvent.encodeOpenMessage c a ∉ (RemoteRelayer.Begin w cfg r addr src).io) ∧
      (RemoteRelayer.Begin w cfg r addr src).r.dst = r.dst) := by
  constructor
  · intro c status h1 h2 h3 h4 hs
    simp [RemoteRelayer.Begin, RemoteRelayer.dialServer, h1, h2, h3, h4, hs]
  · intro h
    cases h1 : w.tlsDial <;> cases h2 : w.newRequest <;> cases h3 : w.reqWrite <;>
      cases h4 : w.readResponse <;>
      simp [RemoteRelayer.Begin, RemoteRelayer.dialServer, h1, h2, h3, h4] at h ⊢
    simp [h]

/-- C8, at a concrete input: the server answers the upgrade request with 403. -/
theorem C8_dial_failure_is_sentinel_witness :
    (exampleWorld .proxyTypeProxy true true 403 true).tlsDial = .ok 9 ∧
    (exampleWorld .proxyTypeProxy true true 403 true).readResponse = .ok 403 ∧
    (RemoteRelayer.Begin (exampleWorld .proxyTypeProxy true true 403 true) exampleConfig
        RemoteRelayer.zero "example.com:443" 1).err = some .ErrCannotDialRemoteServer ∧
    (RemoteRelayer.Begin (exampleWorld .proxyTypeProxy true true 403 true) exampleConfig
        RemoteRelayer.zero "example.com:443" 1).io.getLast? = some (NetEvent.connClose 9) :=
  ⟨rfl, rfl,
    (C8_dial_failure_is_sentinel (exampleWorld .proxyTypeProxy true true 403 true)
      exampleConfig RemoteRelayer.zero "example.com:443" 1).1 9 403 rfl rfl rfl rfl (by decide)⟩

/-! ### The relay loops of the remote relayer -/

/-- The send loop on successful chunks followed by a failing read: it returns
the read error, having read and encoded every chunk. -/
theorem RemoteRelayer.src2dstLoop_chunks_then_error (r : RemoteRelayer)
    (chunks : List (List UInt8)) (last : List UInt8) (e : LibError) (reads : List ReadResult)
    (encs : List (Option LibError)) (all : Int) (io : List RelayEvent) :
    RemoteRelayer.src2dstLoop r
        (chunks.map (fun d => (⟨d, none⟩ : ReadResult)) ++ ⟨last, some e⟩ :: reads)
        (List.replicate chunks.length (none : Option LibError) ++ encs) all io
      = some ⟨chunks.foldl (fun a d => wrapInt64 (a + d.length)) all, some (.lib e),
          io ++ chunks.flatMap
              (fun d => [RelayEvent.srcRead r.src, RelayEvent.encodeRelayMessage r.dst d])
            ++ [RelayEvent.srcRead r.src]⟩ := by
  induction chunks generalizing all io with
  | nil => simp [RemoteRelayer.src2dstLoop]
  | cons d ds ih => simp [RemoteRelayer.src2dstLoop, List.replicate_succ, ih]

/-- The receive loop on successful messages followed by a failing decode: it
returns the decode error, having decoded and written every message. -/
theorem RemoteRelayer.dst2srcLoop_chunks_then_error (r : RemoteRelayer)
    (chunks : List (List UInt8)) (e : LibError) (decs : List (Except LibError (List UInt8)))
    (writes : List (Option LibError)) (all : Int) (io : List RelayEvent) :
    RemoteRelayer.dst2srcLoop r
        (chunks.map (fun d => (.ok d : Except LibError (List UInt8))) ++ .error e :: decs)
        (List.replicate chunks.length (none : Option LibError) ++ writes) all io
      = some ⟨chunks.foldl (fun a d => wrapInt64 (a + d.length)) all, some (.lib e),
          io ++ chunks.flatMap
              (fun d => [RelayEvent.decodeRelayMessage r.dst, RelayEvent.srcWrite r.src d])
            ++ [RelayEvent.decodeRelayMessage r.dst]⟩ := by
  induction chunks generalizing all io with
  | nil => simp [RemoteRelayer.dst2srcLoop]
  | cons d ds ih => simp [RemoteRelayer.dst2srcLoop, List.replicate_succ, ih]

/-- The send loop never returns a `nil` error. -/
theorem RemoteRelayer.src2dstLoop_err_ne_none (r : RemoteRelayer) (reads : List ReadResult)
    (encs : List (Option LibError)) (all : Int) (io : List RelayEvent) (res : CopyResult)
    (h : RemoteRelayer.src2dstLoop r reads encs all io = some res) : res.err ≠ none := by
  induction reads generalizing encs all io with
  | nil => simp [RemoteRelayer.src2dstLoop] at h
  | cons rd rds ih =>
    simp only [RemoteRelayer.src2dstLoop] at h
    rcases hrd : rd.err with _ | e
    · rcases encs with _ | ⟨enc, encs⟩
      · simp [hrd] at h
      · rcases enc with _ | e2
        · simp only [hrd] at h
          exact ih _ _ _ h
        · simp [hrd] at h
          subst h
          simp
    · simp [hrd] at h
      subst h
      simp

/-- The receive loop never returns a `nil` error. -/
theorem RemoteRelayer.dst2srcLoop_err_ne_none (r : RemoteRelayer)
    (decs : List (Except LibError (List UInt8))) (writes : List (Option LibError)) (all : Int)
    (io : List RelayEvent) (res : CopyResult)
    (h : RemoteRelayer.dst2srcLoop r decs writes all io = some res) : res.err ≠ none := by
  induction decs generalizing writes all io with
  | nil => simp [RemoteRelayer.dst2srcLoop] at h
  | cons dc dcs ih =>
    simp only [RemoteRelayer.dst2srcLoop] at h
    rcases dc with e | data
    · simp at h
      subst h
      simp
    · rcases writes with _ | ⟨wr, writes⟩
      · simp at h
      · rcases wr with _ | e2
        · simp only at h
          exact ih _ _ _ h
        · simp at h
          subst h
          simp

/-- After a copy loop that returned an error, the goroutine signals the wait
group and then closes both sockets. -/
theorem RemoteRelayer.afterCopy_of_err (r : RemoteRelayer) (c : CopyResult)
    (h : c.err ≠ none) :
    (RemoteRelayer.afterCopy r c).err = c.err ∧
    (RemoteRelayer.afterCopy r c).io
      = c.io ++ [RelayEvent.wgDone, RelayEvent.connClose r.src, RelayEvent.connClose r.dst] := by
  simp [RemoteRelayer.afterCopy, h]

/-- C10 as stated fails: the client sends two bytes and then its read reports a
clean EOF; `src2dst` returns the error `io.EOF`, not `nil`, and the goroutine
closes `src` and `dst`.  The same on the receive side when the tunnel decode
reports EOF after one message.  `RelayResult` carries `io.EOF` in both
directions. -/
theorem C10_clean_eof_closes_sockets :
    RemoteRelayer.Relay_func1 ⟨some 1, some 9, "example.com:443"⟩
        [⟨[104, 105], none⟩, ⟨[], some .EOF⟩] [none]
      = some ⟨2, some (.lib .EOF),
          [RelayEvent.srcRead (some 1), RelayEvent.encodeRelayMessage (some 9) [104, 105],
           RelayEvent.srcRead (some 1), RelayEvent.wgDone,
           RelayEvent.connClose (some 1), RelayEvent.connClose (some 9)]⟩ ∧
    RemoteRelayer.Relay_func2 ⟨some 1, some 9, "example.com:443"⟩
        [.ok [111, 107, 33], .error .EOF] [none]
      = some ⟨3, some (.lib .EOF),
          [RelayEvent.decodeRelayMessage (some 9), RelayEvent.srcWrite (some 1) [111, 107, 33],
           RelayEvent.decodeRelayMessage (some 9), RelayEvent.wgDone,
           RelayEvent.connClose (some 1), RelayEvent.connClose (some 9)]⟩ ∧
    (RemoteRelayer.Relay ⟨some 1, some 9, "example.com:443"⟩
        [⟨[104, 105], none⟩, ⟨[], some .EOF⟩] [none]
        [.ok [111, 107, 33], .error .EOF] [none]).map RelayRun.result
      = some ⟨some (.lib .EOF), some (.lib .EOF), 2, 3⟩ := by
  refine ⟨?_, ?_, ?_⟩ <;> decide

/-- C10, as the code has it: a direction that ends on a clean end-of-stream
(after any number of relayed chunks, the client read reports EOF in `src2dst`,
or the tunnel decode reports EOF in `dst2src`) completes with the error
`io.EOF`, and its goroutine, after `wg.Done()`, closes `src` and `dst`; and no
direction ever completes with a `nil` error, so every goroutine that finishes
ends with `wg.Done()` followed by the two closes. -/
theorem C10_every_ending_closes_sockets (r : RemoteRelayer) :
    (∀ (chunks : List (List UInt8)) (last : List UInt8) (reads : List ReadResult)
        (encs : List (Option LibError)),
      RemoteRelayer.Relay_func1 r
          (chunks.map (fun d => (⟨d, none⟩ : ReadResult)) ++ ⟨last, some .EOF⟩ :: reads)
          (List.replicate chunks.length (none : Option LibError) ++ encs)
        = some ⟨chunks.foldl (fun a d => wrapInt64 (a + d.length)) 0, some (.lib .EOF),
            chunks.flatMap
                (fun d => [RelayEvent.srcRead r.src, RelayEvent.encodeRelayMessage r.dst d])
              ++ [RelayEvent.srcRead r.src, RelayEvent.wgDone,
                  RelayEvent.connClose r.src, RelayEvent.connClose r.dst]⟩) ∧
    (∀ (chunks : List (List UInt8)) (decs : List (Except LibError (List UInt8)))
        (writes : List (Option LibError)),
      RemoteRelayer.Relay_func2 r
          (chunks.map (fun d => (.ok d : Except LibError (List UInt8))) ++ .error .EOF :: decs)
          (List.replicate chunks.length (none : Option LibError) ++ writes)
        = some ⟨chunks.foldl (fun a d => wrapInt64 (a + d.length)) 0, some (.lib .EOF),
            chunks.flatMap
                (fun d => [RelayEvent.decodeRelayMessage r.dst, RelayEvent.srcWrite r.src d])
              ++ [RelayEvent.decodeRelayMessage r.dst, RelayEvent.wgDone,
                  RelayEvent.connClose r.src, RelayEvent.connClose r.dst]⟩) ∧
    (∀ (reads : List ReadResult) (encs : List (Option LibError)) (res : CopyResult),
      RemoteRelayer.Relay_func1 r reads encs = some res →
        res.err ≠ none ∧
        ∃ pre, res.io = pre ++ [RelayEvent.wgDone, RelayEvent.connClose r.src,
          RelayEvent.connClose r.dst]) ∧
    (∀ (decs : List (Except LibError (List UInt8))) (writes : List (Option LibError))
        (res : CopyResult),
      RemoteRelayer.Relay_func2 r decs writes = some res →
        res.err ≠ none ∧
        ∃ pre, res.io = pre ++ [RelayEvent.wgDone, RelayEvent.connClose r.src,
          RelayEvent.connClose r.dst]) := by
  refine ⟨?_, ?_, ?_, ?_⟩
  · intro chunks last reads encs
    simp [RemoteRelayer.Relay_func1, RemoteRelayer.src2dst,
      RemoteRelayer.src2dstLoop_chunks_then_error, RemoteRelayer.afterCopy]
  · intro chunks decs writes
    simp [RemoteRelayer.Relay_func2, RemoteRelayer.dst2src,
      RemoteRelayer.dst2srcLoop_chunks_then_error, RemoteRelayer.afterCopy]
  · intro reads encs res h
    simp only [RemoteRelayer.Relay_func1, RemoteRelayer.src2dst, Option.map_eq_some'] at h
    obtain ⟨c, hc, rfl⟩ := h
    have hne := RemoteRelayer.src2dstLoop_err_ne_none r reads encs 0 [] c hc
    obtain ⟨herr, hio⟩ := RemoteRelayer.afterCopy_of_err r c hne
    exact ⟨by rw [herr]; exact hne, c.io, hio⟩
  · intro decs writes res h
    simp only [RemoteRelayer.Relay_func2, RemoteRelayer.dst2src, Option.map_eq_some'] at h
    obtain ⟨c, hc, rfl⟩ := h
    have hne := RemoteRelayer.dst2srcLoop_err_ne_none r decs writes 0 [] c hc
    obtain ⟨herr, hio⟩ := RemoteRelayer.afterCopy_of_err r c hne
    exact ⟨by rw [herr]; exact hne, c.io, hio⟩

/-- C10 as the code has it, at a concrete input: the client's first read
reports EOF; the send direction returns an error. -/
theorem C10_every_ending_closes_sockets_witness :
    RemoteRelayer.Relay_func1 ⟨some 1, some 9, "example.com:443"⟩ [⟨[], some .EOF⟩] []
      = some ⟨0, some (.lib .EOF),
          [RelayEvent.srcRead (some 1), RelayEvent.wgDone,
           RelayEvent.connClose (some 1), RelayEvent.connClose (some 9)]⟩ ∧
    (⟨0, some (.lib .EOF),
        [RelayEvent.srcRead (some 1), RelayEvent.wgDone,
         RelayEvent.connClose (some 1), RelayEvent.connClose (some 9)]⟩ : CopyResult).err
      ≠ none :=
  ⟨by decide,
    ((C10_every_ending_closes_sockets ⟨some 1, some 9, "example.com:443"⟩).2.2.1
      [⟨[], some .EOF⟩] [] _ (by decide)).1⟩

end Taosocks
